import Mathlib

/-!
# Leviton Load Center — energy accounting and synchronization, formal model

A shallow embedding of the state-synchronization and energy-accounting engine
of the `leviton_load_center` integration
(`custom_components/leviton_load_center/{energy,websocket,coordinator}.py`).

Conventions:
* Python floats are modelled as exact rationals (`ℚ`); Python's `round(x, n)`
  (round-half-to-even to `n` decimal digits) is modelled by `pyRound n`.
* Python `None` becomes `Option.none`; a nullable float field is `Option ℚ`.
* Python dicts are association lists looked up with `List.lookup`; a dict
  assignment is modelled by consing, which shadows earlier entries exactly as
  assignment overwrites.
* A transport call that may raise a connection error is a value of
  `Except Unit α`.
-/

/-! ## Decimal rounding (Python `round`) -/

/-- Round a rational to the nearest integer, ties to even — the idealization
of Python's built-in `round` on floats. -/
def roundHalfEven (q : ℚ) : ℤ :=
  if q - (⌊q⌋ : ℚ) < 1/2 then ⌊q⌋
  else if 1/2 < q - (⌊q⌋ : ℚ) then ⌊q⌋ + 1
  else if Even ⌊q⌋ then ⌊q⌋ else ⌊q⌋ + 1

/-- Python `round(q, n)` for `n` decimal digits. -/
def pyRound (n : ℕ) (q : ℚ) : ℚ :=
  ((roundHalfEven (q * (10 : ℚ) ^ n) : ℤ) : ℚ) / (10 : ℚ) ^ n

/-- `round(·, 3)`, as used on every stored energy value. -/
def round3 (q : ℚ) : ℚ := pyRound 3 q

/-- `round(·, 2)`, as used on daily energy. -/
def round2 (q : ℚ) : ℚ := pyRound 2 q

/-- A rational expressible with at most 3 decimal digits. Cached/stored
energy values written by the code are always of this shape (the code rounds
every corrected value with `round(·, 3)`). -/
def Is3Dec (q : ℚ) : Prop := ∃ n : ℤ, q = (n : ℚ) / 1000

/-! ## Live (WebSocket) energy normalization — `energy._normalize_energy`

`_normalize_energy` iterates over the energy fields of a WS payload dict;
`normalize_energy_field` is the body of that loop for one field.  `raw` is
`ws_data.get(ws_key)` (`none` = key absent), `current` is the model's
attribute (`getattr(model, attr)`, `none` = Python `None`).  The result is
the field's entry in the payload after normalization (`none` = the key was
deleted, so `model.update()` preserves the current value). -/
/-- Python `x or 0` on a nullable float: `None` and `0.0` both give `0`. -/
def py_or_zero (current : Option ℚ) : ℚ :=
  match current with
  | none => 0
  | some c => c

def normalize_energy_field (raw : Option ℚ) (current : Option ℚ) : Option ℚ :=
  match raw with
  | none => none
  | some v =>
    -- `current = getattr(model, attr) or 0`
    if py_or_zero current = 0 ∨ py_or_zero current * (1/2) < v then
      -- lifetime total (or first value): `ws_data[ws_key] = round(raw, 3)`
      some (round3 v)
    else
      -- bandwidth=1 delta: `del ws_data[ws_key]`
      none

/-- Modelled from the spec: the external `model.update()` (aioleviton, not
part of this repository) sets an attribute exactly when its key is present in
the payload and preserves the stored value otherwise ("the field is dropped
from the merge" / "must replace the stored value"). -/
def merge_field {α : Type} (payload : Option α) (current : Option α) :
    Option α :=
  match payload with
  | some v => some v
  | none => current

/-- The stored value of one energy field after a live update: normalization
followed by the merge. -/
def live_stored_value (raw : Option ℚ) (current : Option ℚ) : Option ℚ :=
  merge_field (normalize_energy_field raw current) current

/-! ## REST delta correction — `energy._correct_device_energy`

The per-field loop body of `_correct_device_energy` (identical logic to the
inline per-field blocks of `coordinator._correct_energy_values`).  `restVal`
is the device attribute freshly read over REST, `cachedVal` is
`stored.get(cache_key)` from the persisted lifetime cache. -/
structure FieldCorrection where
  /-- the device attribute after the correction step -/
  value : Option ℚ
  /-- the lifetime-cache entry after the correction step -/
  cache : Option ℚ
  /-- whether the step reported a change (store dirty flag) -/
  changed : Bool
  deriving Repr, DecidableEq

def correct_energy_field (restVal : Option ℚ) (cachedVal : Option ℚ) :
    FieldCorrection :=
  match restVal with
  | none => ⟨none, cachedVal, false⟩
  | some r =>
    match cachedVal with
    | some c =>
      if r < c * (1/2) then
        -- REST returned a delta: `corrected = round(cached_val + rest_val, 3)`
        let corrected := round3 (c + r)
        ⟨some corrected, some corrected, true⟩
      else if c < r then
        -- lifetime and a new maximum: `stored[cache_key] = rest_val`
        ⟨some r, some r, true⟩
      else
        ⟨some r, some c, false⟩
    | none =>
      -- no cache yet: `stored[cache_key] = rest_val`
      ⟨some r, some r, true⟩

/-! ## Daily energy — `energy.calc_daily_energy` and the coordinator copy -/

/-- `energy.calc_daily_energy`: current lifetime minus the midnight baseline,
clamped at zero and rounded to 2 decimals. `baselines` models
`data.daily_baselines`. -/
def calc_daily_energy (breaker_id : String) (lifetime : Option ℚ)
    (baselines : List (String × ℚ)) : Option ℚ :=
  match lifetime with
  | none => none
  | some lt =>
    match baselines.lookup breaker_id with
    | none => none
    | some baseline => some (round2 (max 0 (lt - baseline)))

/-- `LevitonCoordinator.calc_daily_energy` (the static method in
`coordinator.py`), translated independently of the module-level copy. -/
def coordinator_calc_daily_energy (breaker_id : String) (lifetime : Option ℚ)
    (baselines : List (String × ℚ)) : Option ℚ :=
  match lifetime with
  | none => none
  | some lt =>
    match baselines.lookup breaker_id with
    | none => none
    | some baseline => some (round2 (max 0 (lt - baseline)))

/-! ## Monotonic clamp — `EnergyTracker.clamp_increasing` -/

/-- `EnergyTracker.clamp_increasing`: per-key high-water clamp over the
in-memory `_energy_high_water` dict.  Returns the value handed to the caller
and the updated table. -/
def clamp_increasing (highWater : List (String × ℚ)) (key : String)
    (value : ℚ) : ℚ × List (String × ℚ) :=
  match highWater.lookup key with
  | some prev =>
    if value < prev then (prev, highWater)
    else (value, (key, value) :: highWater)
  | none => (value, (key, value) :: highWater)

/-- Run `clamp_increasing` over a list of values for a fixed key, collecting
the returned values in order. -/
def clamp_run (highWater : List (String × ℚ)) (key : String) :
    List ℚ → List ℚ
  | [] => []
  | v :: rest =>
    let step := clamp_increasing highWater key v
    step.1 :: clamp_run step.2 key rest

/-! ## Firmware version gate — `websocket.needs_individual_breaker_subs`

`tuple(int(x) for x in whem.version.split("."))`, compared with `>= (2, 0, 0)`
by Python tuple lexicographic order; `ValueError`/`AttributeError` (and a
`None` version) yield `True`. -/

def isAsciiDigit (c : Char) : Bool := '0' ≤ c && c ≤ '9'

/-- The tail of a Python decimal digit run: digits, with single underscores
allowed only between digits. -/
def pyDigitsRest : List Char → Bool
  | [] => true
  | '_' :: c :: rest => isAsciiDigit c && pyDigitsRest rest
  | c :: rest => isAsciiDigit c && pyDigitsRest rest

/-- Numeric value of a digit run (underscores already removed). -/
def digitsVal (l : List Char) : ℕ :=
  l.foldl (fun a c => 10 * a + (c.toNat - '0'.toNat)) 0

/-- A nonempty Python digit run and its value; `none` on anything else. -/
def pyDigits (l : List Char) : Option ℕ :=
  match l with
  | [] => none
  | c :: rest =>
    if isAsciiDigit c && pyDigitsRest rest then
      some (digitsVal ((c :: rest).filter (fun ch => ch ≠ '_')))
    else none

/-- Strip whitespace from both ends (Python `int` accepts it around the
digits). -/
def trimChars (l : List Char) : List Char :=
  ((l.dropWhile Char.isWhitespace).reverse.dropWhile Char.isWhitespace).reverse

/-- Python `int(s)` on a string: surrounding whitespace stripped, optional
sign, decimal digits; raises `ValueError` (`none`) otherwise. -/
def parsePyInt (l : List Char) : Option ℤ :=
  match trimChars l with
  | '-' :: rest => (pyDigits rest).map (fun v => -(v : ℤ))
  | '+' :: rest => (pyDigits rest).map (fun v => (v : ℤ))
  | rest => (pyDigits rest).map (fun v => (v : ℤ))

/-- Python `str.split(".")`: split on every dot, keeping empty pieces. -/
def splitOnDot : List Char → List (List Char)
  | [] => [[]]
  | c :: rest =>
    if c = '.' then [] :: splitOnDot rest
    else
      match splitOnDot rest with
      | [] => [[c]]
      | h :: t => (c :: h) :: t

/-- `tuple(int(x) for x in version.split("."))`; `none` is the `ValueError`
path. -/
def parseVersionParts (v : String) : Option (List ℤ) :=
  (splitOnDot v.data).mapM parsePyInt

/-- Python `<` on integer tuples (lexicographic; a proper prefix is
smaller). -/
def pyTupleLt : List ℤ → List ℤ → Bool
  | [], [] => false
  | [], _ :: _ => true
  | _ :: _, [] => false
  | x :: xs, y :: ys =>
    if x < y then true else if y < x then false else pyTupleLt xs ys

/-! ## Device records and the Device Store -/

structure Whem where
  id : String
  version : Option String
  deriving Repr, DecidableEq

structure Panel where
  id : String
  deriving Repr, DecidableEq

structure Breaker where
  id : String
  energy_consumption : Option ℚ
  energy_consumption_2 : Option ℚ
  energy_import : Option ℚ
  can_remote_on : Bool
  current_state : Option String
  iot_whem_id : Option String
  deriving Repr, DecidableEq

structure Ct where
  id : ℤ
  energy_consumption : Option ℚ
  energy_consumption_2 : Option ℚ
  energy_import : Option ℚ
  energy_import_2 : Option ℚ
  deriving Repr, DecidableEq

/-- `websocket.needs_individual_breaker_subs(whem)`.  Python `parts >= (2,0,0)`
on integer tuples is the negation of the (total) lexicographic `<`. -/
def needs_individual_breaker_subs (whem : Whem) : Bool :=
  match whem.version with
  | none => true -- assume newest FW if unknown
  | some v =>
    match parseVersionParts v with
    | none => true -- ValueError: assume newest FW if unparseable
    | some parts => !(pyTupleLt parts [2, 0, 0])

/-- `coordinator.LevitonData`: the Device Store (residences and daily
baselines carried elsewhere where needed). -/
structure LevitonData where
  whems : List (String × Whem)
  panels : List (String × Panel)
  breakers : List (String × Breaker)
  cts : List (ℤ × Ct)
  deriving Repr, DecidableEq

/-! ## Topology discovery — `coordinator._discover_residence_devices`

Each transport call's outcome is a value of `Except Unit _` (`error` models a
raised `LevitonConnectionError`).  The control structure mirrors the source:
one guard around the whole WHEM branch, one around the whole panel branch,
and inner guards around each per-hub child fetch. -/

structure DiscoveryClient where
  get_whems : ℤ → Except Unit (List Whem)
  get_whem_breakers : String → Except Unit (List Breaker)
  get_cts : String → Except Unit (List Ct)
  get_panels : ℤ → Except Unit (List Panel)
  get_panel_breakers : String → Except Unit (List Breaker)

/-- `self.data.breakers[breaker.id] = breaker` -/
def store_breaker (d : LevitonData) (b : Breaker) : LevitonData :=
  { d with breakers := (b.id, b) :: d.breakers }

/-- `self.data.cts[ct.id] = ct` -/
def store_ct (d : LevitonData) (c : Ct) : LevitonData :=
  { d with cts := (c.id, c) :: d.cts }

/-- Loop body of the WHEM branch: store the hub, then its breakers and CTs,
each child fetch independently guarded. -/
def add_whem_children (client : DiscoveryClient) (d : LevitonData)
    (whem : Whem) : LevitonData :=
  let d1 := { d with whems := (whem.id, whem) :: d.whems }
  let d2 :=
    match client.get_whem_breakers whem.id with
    | .error _ => d1
    | .ok brs => brs.foldl store_breaker d1
  match client.get_cts whem.id with
  | .error _ => d2
  | .ok cts => cts.foldl store_ct d2

/-- Loop body of the panel branch: store the panel, then its breakers. -/
def add_panel_children (client : DiscoveryClient) (d : LevitonData)
    (panel : Panel) : LevitonData :=
  let d1 := { d with panels := (panel.id, panel) :: d.panels }
  match client.get_panel_breakers panel.id with
  | .error _ => d1
  | .ok brs => brs.foldl store_breaker d1

/-- `_discover_residence_devices`: WHEM branch then panel branch, each
guarded as a whole against transport failure. -/
def discover_residence_devices (client : DiscoveryClient) (residence_id : ℤ)
    (d : LevitonData) : LevitonData :=
  let dWhem :=
    match client.get_whems residence_id with
    | .error _ => d
    | .ok whems => whems.foldl (add_whem_children client) d
  match client.get_panels residence_id with
  | .error _ => dWhem
  | .ok panels => panels.foldl (add_panel_children client) dWhem

/-! ## Live notification handling — `websocket.WebSocketManager`

The WS payload dict is projected into the views the handler reads from it:
the child arrays (`data["ResidentialBreaker"]`, `data["IotCt"]`), the same
dict read as a single breaker or CT update (for direct notifications), and
the list of its remaining top-level keys.  `isEmpty` is `not data_payload`
(dict truthiness). -/

structure BreakerData where
  id : Option String
  energyConsumption : Option ℚ
  energyConsumption2 : Option ℚ
  energyImport : Option ℚ
  remoteTrip : Bool
  currentState : Option String
  deriving Repr, DecidableEq

structure CtData where
  id : Option ℤ
  energyConsumption : Option ℚ
  energyConsumption2 : Option ℚ
  energyImport : Option ℚ
  energyImport2 : Option ℚ
  deriving Repr, DecidableEq

structure WsPayload where
  /-- `not data_payload`: the payload dict is empty -/
  isEmpty : Bool
  /-- `data_payload["ResidentialBreaker"]` when the key is present -/
  breakerChildren : Option (List BreakerData)
  /-- `data_payload["IotCt"]` when the key is present -/
  ctChildren : Option (List CtData)
  /-- the payload read as one breaker update (direct notifications) -/
  breakerFields : BreakerData
  /-- the payload read as one CT update (direct notifications) -/
  ctFields : CtData
  /-- the top-level keys other than the two child-array keys -/
  otherKeys : List String
  deriving Repr, DecidableEq

structure WsNotification where
  /-- `notification.get("modelName", "")` -/
  modelName : String
  /-- `notification.get("modelId")` -/
  modelId : Option ℤ
  /-- `notification.get("data", {})` -/
  payload : WsPayload
  deriving Repr, DecidableEq

/-- The store shape `websocket.py` operates on: all four device maps keyed by
strings (the handler builds its CT keys with `str(...)`). -/
structure WsData where
  whems : List (String × Whem)
  panels : List (String × Panel)
  breakers : List (String × Breaker)
  cts : List (String × Ct)
  deriving Repr, DecidableEq

/-- The `WebSocketManager` state the staleness machinery reads:
`wsConnected` is `self.ws is not None`, `lastWsNotification` is
`self._last_ws_notification` on the monotonic clock. -/
structure WsManagerState where
  wsConnected : Bool
  reconnecting : Bool
  lastWsNotification : ℚ
  data : WsData
  deriving Repr, DecidableEq

/-- `energy.normalize_breaker_energy`: `_normalize_energy` over the three
breaker energy fields. -/
def normalize_breaker_energy (bd : BreakerData) (b : Breaker) : BreakerData :=
  { bd with
    energyConsumption :=
      normalize_energy_field bd.energyConsumption b.energy_consumption
    energyConsumption2 :=
      normalize_energy_field bd.energyConsumption2 b.energy_consumption_2
    energyImport := normalize_energy_field bd.energyImport b.energy_import }

/-- `energy.normalize_ct_energy`: `_normalize_energy` over the four CT energy
fields. -/
def normalize_ct_energy (cd : CtData) (c : Ct) : CtData :=
  { cd with
    energyConsumption :=
      normalize_energy_field cd.energyConsumption c.energy_consumption
    energyConsumption2 :=
      normalize_energy_field cd.energyConsumption2 c.energy_consumption_2
    energyImport := normalize_energy_field cd.energyImport c.energy_import
    energyImport2 :=
      normalize_energy_field cd.energyImport2 c.energy_import_2 }

/-- Modelled from the spec: aioleviton `Breaker.update(payload)` (external)
sets each attribute whose key is present in the payload. -/
def breaker_update (b : Breaker) (bd : BreakerData) : Breaker :=
  { b with
    energy_consumption := merge_field bd.energyConsumption b.energy_consumption
    energy_consumption_2 :=
      merge_field bd.energyConsumption2 b.energy_consumption_2
    energy_import := merge_field bd.energyImport b.energy_import
    current_state := merge_field bd.currentState b.current_state }

/-- Modelled from the spec: aioleviton `Ct.update(payload)` (external). -/
def ct_update (c : Ct) (cd : CtData) : Ct :=
  { c with
    energy_consumption := merge_field cd.energyConsumption c.energy_consumption
    energy_consumption_2 :=
      merge_field cd.energyConsumption2 c.energy_consumption_2
    energy_import := merge_field cd.energyImport c.energy_import
    energy_import_2 := merge_field cd.energyImport2 c.energy_import_2 }

/-- Modelled from the spec: aioleviton `Whem.update`/`Panel.update` merge
scalar fields not tracked by this model; the tracked fields are unchanged by
a hub/panel own-field merge. -/
def whem_own_update (w : Whem) (_ : WsPayload) : Whem := w

/-- Modelled from the spec: see `whem_own_update`. -/
def panel_own_update (p : Panel) (_ : WsPayload) : Panel := p

/-- `WebSocketManager._apply_breaker_ws_update`: guard on a falsy or unknown
id, then normalize energy, synthesize `currentState` for a Gen 1 remote trip
(`setdefault`, with `STATE_SOFTWARE_TRIP = "SoftwareTrip"` as in the inline
coordinator copy; `const.py` itself is not in the tree), then merge. -/
def apply_breaker_ws_update (d : WsData) (bd : BreakerData) : WsData × Bool :=
  match bd.id with
  | none => (d, false)
  | some bid =>
    if bid = "" then (d, false) -- Python `if not breaker_id`
    else
      match d.breakers.lookup bid with
      | none => (d, false)
      | some b =>
        let bd1 := normalize_breaker_energy bd b
        let bd2 :=
          if bd1.remoteTrip && !b.can_remote_on then
            { bd1 with currentState := some (bd1.currentState.getD "SoftwareTrip") }
          else bd1
        ({ d with breakers := (bid, breaker_update b bd2) :: d.breakers }, true)

/-- One CT child update inside an `IotWhem` notification. -/
def apply_ct_ws_update (d : WsData) (cd : CtData) : WsData :=
  match cd.id with
  | none => d
  | some cid =>
    let ctKey := toString cid
    match d.cts.lookup ctKey with
    | none => d
    | some c =>
      { d with cts := (ctKey, ct_update c (normalize_ct_energy cd c)) :: d.cts }

/-- The `IotWhem` branch of `_handle_ws_notification`: child breakers, child
CTs, then the hub's own fields (everything except the two child arrays). -/
def handle_iot_whem (d : WsData) (mid : ℤ) (p : WsPayload) : WsData :=
  let d1 :=
    match p.breakerChildren with
    | none => d
    | some children =>
      children.foldl (fun acc bd => (apply_breaker_ws_update acc bd).1) d
  let d2 :=
    match p.ctChildren with
    | none => d1
    | some children => children.foldl apply_ct_ws_update d1
  if p.otherKeys ≠ [] then
    match d2.whems.lookup (toString mid) with
    | some w =>
      { d2 with whems := (toString mid, whem_own_update w p) :: d2.whems }
    | none => d2
  else d2

/-- The `ResidentialBreakerPanel` branch: child breakers, then the panel's
own fields.  `panel_data` excludes only the `"ResidentialBreaker"` key, so a
present (unused) `"IotCt"` key counts towards its non-emptiness. -/
def handle_breaker_panel (d : WsData) (mid : ℤ) (p : WsPayload) : WsData :=
  let d1 :=
    match p.breakerChildren with
    | none => d
    | some children =>
      children.foldl (fun acc bd => (apply_breaker_ws_update acc bd).1) d
  if p.ctChildren.isSome || !p.otherKeys.isEmpty then
    match d1.panels.lookup (toString mid) with
    | some pa =>
      { d1 with panels := (toString mid, panel_own_update pa p) :: d1.panels }
    | none => d1
  else d1

/-- The `ResidentialBreaker` branch: `data_payload["id"] = str(model_id)`,
then one breaker update. -/
def handle_direct_breaker (d : WsData) (mid : ℤ) (p : WsPayload) : WsData :=
  (apply_breaker_ws_update d
    { p.breakerFields with id := some (toString mid) }).1

/-- The `IotCt` branch: one CT update keyed `str(model_id)`. -/
def handle_direct_ct (d : WsData) (mid : ℤ) (p : WsPayload) : WsData :=
  let ctKey := toString mid
  match d.cts.lookup ctKey with
  | none => d
  | some c =>
    { d with
      cts := (ctKey, ct_update c (normalize_ct_energy p.ctFields c)) :: d.cts }

/-- `WebSocketManager._handle_ws_notification` at monotonic time `now`.  Its
first statement is `self._last_ws_notification = time.monotonic()`, before
the empty-payload / missing-id guard and the model-name dispatch; dropped and
unknown notifications return with only the clock changed. -/
def handle_ws_notification (s : WsManagerState) (now : ℚ)
    (n : WsNotification) : WsManagerState :=
  let s1 := { s with lastWsNotification := now }
  match n.modelId with
  | none => s1
  | some mid =>
    if n.payload.isEmpty then s1
    else if n.modelName = "IotWhem" then
      { s1 with data := handle_iot_whem s1.data mid n.payload }
    else if n.modelName = "ResidentialBreakerPanel" then
      { s1 with data := handle_breaker_panel s1.data mid n.payload }
    else if n.modelName = "ResidentialBreaker" then
      { s1 with data := handle_direct_breaker s1.data mid n.payload }
    else if n.modelName = "IotCt" then
      { s1 with data := handle_direct_ct s1.data mid n.payload }
    else s1 -- unknown model: logged and ignored

/-- The decision of `_async_ws_watchdog` at monotonic time `now`: `true` iff
the watchdog would tear the connection down and schedule a reconnect
(connected, not already reconnecting, and silent for 90 seconds or more). -/
def watchdog_declares_stale (s : WsManagerState) (now : ℚ) : Bool :=
  if !s.wsConnected || s.reconnecting then false
  else if now - s.lastWsNotification < 90 then false
  else true

/-! ## Concrete fixtures used by the witness theorems -/

/-- A discovery client whose WHEM fetch raises and whose panel fetch
returns one panel. -/
def demoClientHubFail : DiscoveryClient :=
  ⟨fun _ => .error (), fun _ => .ok [], fun _ => .ok [],
    fun _ => .ok [⟨"p1"⟩], fun _ => .ok []⟩

/-- A discovery client whose panel fetch raises and whose WHEM fetch
returns one hub. -/
def demoClientPanelFail : DiscoveryClient :=
  ⟨fun _ => .ok [⟨"w1", none⟩], fun _ => .ok [], fun _ => .ok [],
    fun _ => .error (), fun _ => .ok []⟩

/-- An empty Device Store. -/
def emptyData : LevitonData := ⟨[], [], [], []⟩

/-- A connected, idle WebSocket manager state. -/
def demoWsState : WsManagerState := ⟨true, false, 0, ⟨[], [], [], []⟩⟩

/-- A notification with an unknown model name and no id. -/
def demoNotice : WsNotification :=
  ⟨"Unknown", none,
    ⟨true, none, none, ⟨none, none, none, none, false, none⟩,
      ⟨none, none, none, none, none⟩, []⟩⟩

/-! # Theorems

First the arithmetic facts about the decimal rounding, then the helper
lemmas about folds and lookups, then one theorem per verified property. -/
theorem roundHalfEven_ge_floor (q : ℚ) : ⌊q⌋ ≤ roundHalfEven q := by
  unfold roundHalfEven
  split
  · exact le_refl _
  · split
    · omega
    · split
      · exact le_refl _
      · omega

theorem roundHalfEven_of_floor {q : ℚ} {n : ℤ} (hn : ⌊q⌋ = n)
    (h : q - (n : ℚ) < 1/2) : roundHalfEven q = n := by
  unfold roundHalfEven
  rw [hn]
  exact if_pos h

theorem roundHalfEven_of_floor_half_lt {q : ℚ} {n : ℤ} (hn : ⌊q⌋ = n)
    (h : 1/2 < q - (n : ℚ)) : roundHalfEven q = n + 1 := by
  unfold roundHalfEven
  rw [hn, if_neg (by linarith), if_pos h]

theorem round3_eq_of_floor {q : ℚ} {n : ℤ} (hn : ⌊q * 10 ^ 3⌋ = n)
    (h : q * 10 ^ 3 - (n : ℚ) < 1/2) : round3 q = (n : ℚ) / 1000 := by
  unfold round3 pyRound
  rw [roundHalfEven_of_floor hn h]
  norm_num

theorem roundHalfEven_nonneg {q : ℚ} (hq : 0 ≤ q) : 0 ≤ roundHalfEven q := by
  have h0 : (0 : ℤ) ≤ ⌊q⌋ := Int.floor_nonneg.mpr hq
  exact le_trans h0 (roundHalfEven_ge_floor q)

theorem pyRound_nonneg {n : ℕ} {q : ℚ} (hq : 0 ≤ q) : 0 ≤ pyRound n q := by
  unfold pyRound
  have hpow : (0 : ℚ) < (10 : ℚ) ^ n := by positivity
  have hnum : (0 : ℚ) ≤ ((roundHalfEven (q * (10 : ℚ) ^ n) : ℤ) : ℚ) := by
    have := roundHalfEven_nonneg (q := q * (10 : ℚ) ^ n) (by positivity)
    exact_mod_cast this
  exact div_nonneg hnum (le_of_lt hpow)

theorem round3_intAdd_ge {L r : ℚ} (hL : Is3Dec L) (hr : 0 ≤ r) :
    L ≤ round3 (L + r) := by
  obtain ⟨n, hn⟩ := hL
  subst hn
  have hfloor : n ≤ ⌊((n : ℚ) / 1000 + r) * (10 : ℚ) ^ 3⌋ :=
    Int.le_floor.mpr (by nlinarith)
  have hrnd : n ≤ roundHalfEven (((n : ℚ) / 1000 + r) * (10 : ℚ) ^ 3) :=
    le_trans hfloor (roundHalfEven_ge_floor _)
  have hq : (n : ℚ) ≤
      ((roundHalfEven (((n : ℚ) / 1000 + r) * (10 : ℚ) ^ 3) : ℤ) : ℚ) := by
    exact_mod_cast hrnd
  unfold round3 pyRound
  calc (n : ℚ) / 1000
      ≤ ((roundHalfEven (((n : ℚ) / 1000 + r) * (10 : ℚ) ^ 3) : ℤ) : ℚ) / 1000 := by
        gcongr
    _ = ((roundHalfEven (((n : ℚ) / 1000 + r) * (10 : ℚ) ^ 3) : ℤ) : ℚ) /
        (10 : ℚ) ^ 3 := by norm_num

theorem round3_intAdd_gt {L r : ℚ} (hL : Is3Dec L) (hr : 1/1000 ≤ r) :
    L < round3 (L + r) := by
  obtain ⟨n, hn⟩ := hL
  subst hn
  have hfloor : n + 1 ≤ ⌊((n : ℚ) / 1000 + r) * (10 : ℚ) ^ 3⌋ :=
    Int.le_floor.mpr (by push_cast; nlinarith)
  have hrnd : n + 1 ≤ roundHalfEven (((n : ℚ) / 1000 + r) * (10 : ℚ) ^ 3) :=
    le_trans hfloor (roundHalfEven_ge_floor _)
  have hq : (n : ℚ) + 1 ≤
      ((roundHalfEven (((n : ℚ) / 1000 + r) * (10 : ℚ) ^ 3) : ℤ) : ℚ) := by
    exact_mod_cast hrnd
  unfold round3 pyRound
  calc (n : ℚ) / 1000
      < ((n : ℚ) + 1) / 1000 := by gcongr; linarith
    _ ≤ ((roundHalfEven (((n : ℚ) / 1000 + r) * (10 : ℚ) ^ 3) : ℤ) : ℚ) / 1000 := by
        gcongr
    _ = ((roundHalfEven (((n : ℚ) / 1000 + r) * (10 : ℚ) ^ 3) : ℤ) : ℚ) /
        (10 : ℚ) ^ 3 := by norm_num

/-! ## Helper lemmas: association lists, folds, clamp -/

theorem lookup_isSome_cons {α : Type} (k k' : String) (v : α)
    (l : List (String × α)) (h : (l.lookup k).isSome) :
    (((k', v) :: l).lookup k).isSome := by
  simp only [List.lookup]
  split
  · rfl
  · exact h

theorem lookup_cons_self {α : Type} (k : String) (v : α)
    (l : List (String × α)) : ((k, v) :: l).lookup k = some v := by
  simp [List.lookup]

theorem foldl_store_breaker_whems : ∀ (brs : List Breaker) (d : LevitonData),
    (brs.foldl store_breaker d).whems = d.whems
  | [], _ => rfl
  | _ :: bs, d => foldl_store_breaker_whems bs (store_breaker d _)

theorem foldl_store_breaker_panels : ∀ (brs : List Breaker) (d : LevitonData),
    (brs.foldl store_breaker d).panels = d.panels
  | [], _ => rfl
  | _ :: bs, d => foldl_store_breaker_panels bs (store_breaker d _)

theorem foldl_store_ct_whems : ∀ (cts : List Ct) (d : LevitonData),
    (cts.foldl store_ct d).whems = d.whems
  | [], _ => rfl
  | _ :: cs, d => foldl_store_ct_whems cs (store_ct d _)

theorem foldl_store_ct_panels : ∀ (cts : List Ct) (d : LevitonData),
    (cts.foldl store_ct d).panels = d.panels
  | [], _ => rfl
  | _ :: cs, d => foldl_store_ct_panels cs (store_ct d _)

theorem add_whem_children_whems (c : DiscoveryClient) (d : LevitonData)
    (w : Whem) : (add_whem_children c d w).whems = (w.id, w) :: d.whems := by
  unfold add_whem_children
  cases hb : c.get_whem_breakers w.id <;> cases hc : c.get_cts w.id <;>
    simp [foldl_store_breaker_whems, foldl_store_ct_whems]

theorem add_whem_children_panels (c : DiscoveryClient) (d : LevitonData)
    (w : Whem) : (add_whem_children c d w).panels = d.panels := by
  unfold add_whem_children
  cases hb : c.get_whem_breakers w.id <;> cases hc : c.get_cts w.id <;>
    simp [foldl_store_breaker_panels, foldl_store_ct_panels]

theorem add_panel_children_panels (c : DiscoveryClient) (d : LevitonData)
    (p : Panel) : (add_panel_children c d p).panels = (p.id, p) :: d.panels := by
  unfold add_panel_children
  cases hb : c.get_panel_breakers p.id <;> simp [foldl_store_breaker_panels]

theorem foldl_add_whem_children_whems_isSome (c : DiscoveryClient) :
    ∀ (ws : List Whem) (d : LevitonData) (k : String),
      ((d.whems.lookup k).isSome) →
      (((ws.foldl (add_whem_children c) d).whems).lookup k).isSome
  | [], _, _, h => h
  | w :: rest, d, k, h => by
    have h1 : (((add_whem_children c d w).whems).lookup k).isSome := by
      rw [add_whem_children_whems]
      exact lookup_isSome_cons k w.id w d.whems h
    exact foldl_add_whem_children_whems_isSome c rest _ k h1

theorem foldl_add_whem_children_mem (c : DiscoveryClient) :
    ∀ (ws : List Whem) (d : LevitonData) (w : Whem), w ∈ ws →
      (((ws.foldl (add_whem_children c) d).whems).lookup w.id).isSome
  | [], _, _, h => absurd h (List.not_mem_nil _)
  | w' :: rest, d, w, h => by
    rcases List.mem_cons.mp h with heq | hmem
    · subst heq
      show ((rest.foldl (add_whem_children c)
        (add_whem_children c d w)).whems.lookup w.id).isSome
      apply foldl_add_whem_children_whems_isSome
      rw [add_whem_children_whems, lookup_cons_self]
      rfl
    · exact foldl_add_whem_children_mem c rest _ w hmem

theorem foldl_add_panel_children_panels_isSome (c : DiscoveryClient) :
    ∀ (ps : List Panel) (d : LevitonData) (k : String),
      ((d.panels.lookup k).isSome) →
      (((ps.foldl (add_panel_children c) d).panels).lookup k).isSome
  | [], _, _, h => h
  | p :: rest, d, k, h => by
    have h1 : (((add_panel_children c d p).panels).lookup k).isSome := by
      rw [add_panel_children_panels]
      exact lookup_isSome_cons k p.id p _ h
    exact foldl_add_panel_children_panels_isSome c rest _ k h1

theorem foldl_add_panel_children_mem (c : DiscoveryClient) :
    ∀ (ps : List Panel) (d : LevitonData) (p : Panel), p ∈ ps →
      (((ps.foldl (add_panel_children c) d).panels).lookup p.id).isSome
  | [], _, _, h => absurd h (List.not_mem_nil _)
  | p' :: rest, d, p, h => by
    rcases List.mem_cons.mp h with heq | hmem
    · subst heq
      show ((rest.foldl (add_panel_children c)
        (add_panel_children c d p)).panels.lookup p.id).isSome
      apply foldl_add_panel_children_panels_isSome
      rw [add_panel_children_panels, lookup_cons_self]
      rfl
    · exact foldl_add_panel_children_mem c rest _ p hmem

theorem clamp_increasing_ret (hw : List (String × ℚ)) (k : String) (v : ℚ) :
    (clamp_increasing hw k v).1 =
      (hw.lookup k).elim v (fun p => max p v) := by
  cases h : hw.lookup k with
  | none => simp [clamp_increasing, h]
  | some p =>
    simp only [clamp_increasing, h, Option.elim]
    split_ifs with hlt
    · simp [max_eq_left (le_of_lt hlt)]
    · simp [max_eq_right (not_lt.mp hlt)]

theorem clamp_increasing_state_lookup (hw : List (String × ℚ)) (k : String)
    (v : ℚ) : ((clamp_increasing hw k v).2).lookup k =
      some ((clamp_increasing hw k v).1) := by
  cases h : hw.lookup k with
  | none => simp [clamp_increasing, h, lookup_cons_self]
  | some p =>
    simp only [clamp_increasing, h]
    split_ifs with hlt
    · simpa using h
    · simp [lookup_cons_self]

theorem clamp_increasing_ge {hw : List (String × ℚ)} {k : String} {p : ℚ}
    (v : ℚ) (h : hw.lookup k = some p) : p ≤ (clamp_increasing hw k v).1 := by
  rw [clamp_increasing_ret hw k v, h]
  exact le_max_left p v

theorem clamp_run_chain_from (k : String) :
    ∀ (vs : List ℚ) (hw : List (String × ℚ)) (p : ℚ),
      hw.lookup k = some p → List.Chain (· ≤ ·) p (clamp_run hw k vs)
  | [], _, _, _ => List.Chain.nil
  | v :: rest, hw, p, h => by
    simp only [clamp_run]
    exact List.Chain.cons (clamp_increasing_ge v h)
      (clamp_run_chain_from k rest _ _ (clamp_increasing_state_lookup hw k v))

/-! ## Claim theorems -/

/-- C10: the module-level `energy.calc_daily_energy` and the static method
`LevitonCoordinator.calc_daily_energy` are extensionally equal: for every
breaker key, every lifetime value (including `None`) and every store state
they return the same result. -/
theorem c10_daily_energy_copies_agree (breaker_id : String)
    (lifetime : Option ℚ) (baselines : List (String × ℚ)) :
    calc_daily_energy breaker_id lifetime baselines =
      coordinator_calc_daily_energy breaker_id lifetime baselines := rfl

/-- C4: `calc_daily_energy` returns `max 0 (lifetime - baseline)` rounded to
2 decimals when both the lifetime and a baseline for the key are available,
returns `none` when either is unavailable, and for `lifetime ≥ 0` and any
baseline — including a baseline above the lifetime — the returned value is
never negative. -/
theorem c4_daily_energy_nonneg (k : String) (lt : ℚ)
    (baselines : List (String × ℚ)) :
    calc_daily_energy k none baselines = none ∧
    (baselines.lookup k = none →
      calc_daily_energy k (some lt) baselines = none) ∧
    (∀ b, baselines.lookup k = some b →
      calc_daily_energy k (some lt) baselines =
        some (round2 (max 0 (lt - b)))) ∧
    (0 ≤ lt → ∀ v, calc_daily_energy k (some lt) baselines = some v →
      0 ≤ v) := by
  refine ⟨rfl, ?_, ?_, ?_⟩
  · intro h
    simp [calc_daily_energy, h]
  · intro b h
    simp [calc_daily_energy, h]
  · intro _ v hv
    unfold calc_daily_energy at hv
    cases hlk : baselines.lookup k with
    | none => rw [hlk] at hv; cases hv
    | some b =>
      rw [hlk] at hv
      simp only [Option.some.injEq] at hv
      rw [← hv]
      have h0 : (0 : ℚ) ≤ max 0 (lt - b) := le_max_left 0 (lt - b)
      show (0 : ℚ) ≤ pyRound 2 (max 0 (lt - b))
      exact pyRound_nonneg h0

/-- C4 witness: lifetime `5`, baseline `2` for key `"b1"` — the daily value
is `round2 (max 0 3)` and is non-negative. -/
theorem c4_daily_energy_nonneg_witness :
    calc_daily_energy "b1" (some 5) [("b1", 2)] =
      some (round2 (max 0 (5 - 2))) ∧
    (0 : ℚ) ≤ round2 (max 0 ((5 : ℚ) - 2)) := by
  have h := c4_daily_energy_nonneg "b1" 5 [("b1", (2 : ℚ))]
  have hlk : ([("b1", (2 : ℚ))]).lookup "b1" = some 2 := lookup_cons_self _ _ _
  exact ⟨h.2.2.1 2 hlk, h.2.2.2 (by norm_num) _ (h.2.2.1 2 hlk)⟩

/-- C7: `clamp_increasing` returns `max(previousHighWater, value)` for the
key, and over any call sequence from a fresh high-water table the returned
values are non-decreasing regardless of the inputs. -/
theorem c7_clamp_monotone :
    (∀ (k : String) (vs : List ℚ),
      List.Chain' (· ≤ ·) (clamp_run [] k vs)) ∧
    (∀ (hw : List (String × ℚ)) (k : String) (v : ℚ),
      (clamp_increasing hw k v).1 =
        (hw.lookup k).elim v (fun p => max p v)) := by
  constructor
  · intro k vs
    cases vs with
    | nil => simp [clamp_run]
    | cons v rest =>
      have hstep : clamp_increasing [] k v = (v, [(k, v)]) := by
        simp [clamp_increasing]
      simp only [clamp_run, hstep]
      exact clamp_run_chain_from k rest [(k, v)] v (lookup_cons_self _ _ _)
  · exact clamp_increasing_ret

/-- C6: the firmware gate returns `true` for `"2.0.0"` and `"2.0.13"`,
`true` for a `None` version, `true` for any version string the parser
rejects, and `false` for `"1.7.6"`. -/
theorem c6_firmware_gate :
    needs_individual_breaker_subs ⟨"hub", some "2.0.0"⟩ = true ∧
    needs_individual_breaker_subs ⟨"hub", some "2.0.13"⟩ = true ∧
    needs_individual_breaker_subs ⟨"hub", none⟩ = true ∧
    needs_individual_breaker_subs ⟨"hub", some "1.7.6"⟩ = false ∧
    ∀ (i v : String), parseVersionParts v = none →
      needs_individual_breaker_subs ⟨i, some v⟩ = true := by
  refine ⟨by decide, by decide, rfl, by decide, ?_⟩
  intro i v h
  simp [needs_individual_breaker_subs, h]

/-- C6 witness: `"beta"` does not parse, and the gate answers `true` for
it. -/
theorem c6_firmware_gate_witness :
    parseVersionParts "beta" = none ∧
      needs_individual_breaker_subs ⟨"hub2", some "beta"⟩ = true :=
  ⟨by decide, c6_firmware_gate.2.2.2.2 "hub2" "beta" (by decide)⟩

/-- C1 counterexample: the claim demands that a live value `v ≥ 0.5·L` be
stored `exactly`; at the boundary `v = 0.5·L` (here `v = 1`, `L = 2`) the
code instead discards the field and keeps the stored value `2`, and for an
absent `L` the accepted value `1/2500` is stored rounded to 3 decimals
(`0`), not exactly. -/
theorem c1_live_counterexample :
    ((1 : ℚ) ≥ (1/2) * 2 ∧ live_stored_value (some 1) (some 2) = some 2) ∧
    (live_stored_value (some (1/2500)) none = some 0 ∧
      (0 : ℚ) ≠ 1/2500) := by
  refine ⟨⟨by norm_num, ?_⟩, ?_, by norm_num⟩
  · have hc : ¬(py_or_zero (some (2 : ℚ)) = 0 ∨
        py_or_zero (some (2 : ℚ)) * (1/2) < 1) := by
      norm_num [py_or_zero]
    have hn : normalize_energy_field (some 1) (some 2) = none := by
      simp only [normalize_energy_field]
      rw [if_neg hc]
    simp [live_stored_value, hn, merge_field]
  · have hf : ⌊((1 : ℚ)/2500) * 10 ^ 3⌋ = 0 := by
      rw [Int.floor_eq_iff]
      norm_num
    have hr3 : round3 ((1 : ℚ)/2500) = 0 := by
      have h := round3_eq_of_floor hf (by norm_num)
      rw [h]
      norm_num
    have hc : py_or_zero (none : Option ℚ) = 0 ∨
        py_or_zero (none : Option ℚ) * (1/2) < 1/2500 := by
      norm_num [py_or_zero]
    have hn : normalize_energy_field (some (1/2500)) none =
        some (round3 (1/2500)) := by
      simp only [normalize_energy_field]
      rw [if_pos hc]
    unfold live_stored_value
    rw [hn, hr3]
    rfl

/-- C1 (amended): for a live energy value `v` against current value
`current`: when the device's current value is present and nonzero and
`v ≤ 0.5·current` (note: boundary included), the field is deleted from the
payload and the stored value is unchanged; when the current value is absent
or zero, or `v > 0.5·current` (strict), the payload entry and hence the
stored value become `v` rounded to 3 decimals. -/
theorem c1_live_value_normalization (v : ℚ) (current : Option ℚ) :
    (py_or_zero current ≠ 0 → v ≤ py_or_zero current * (1/2) →
      normalize_energy_field (some v) current = none ∧
        live_stored_value (some v) current = current) ∧
    (py_or_zero current = 0 ∨ py_or_zero current * (1/2) < v →
      normalize_energy_field (some v) current = some (round3 v) ∧
        live_stored_value (some v) current = some (round3 v)) := by
  constructor
  · intro h1 h2
    have hc : ¬(py_or_zero current = 0 ∨ py_or_zero current * (1/2) < v) := by
      push_neg
      exact ⟨h1, h2⟩
    have hn : normalize_energy_field (some v) current = none := by
      simp only [normalize_energy_field]
      rw [if_neg hc]
    exact ⟨hn, by simp [live_stored_value, hn, merge_field]⟩
  · intro h
    have hn : normalize_energy_field (some v) current = some (round3 v) := by
      simp only [normalize_energy_field]
      rw [if_pos h]
    exact ⟨hn, by simp [live_stored_value, hn, merge_field]⟩

/-- C1 witness: at `current = 4`, the sub-half value `1` is dropped (store
keeps `4`) and the above-half value `3` is stored as `round3 3`. -/
theorem c1_live_value_normalization_witness :
    (normalize_energy_field (some 1) (some 4) = none ∧
      live_stored_value (some 1) (some 4) = some 4) ∧
    (normalize_energy_field (some 3) (some 4) = some (round3 3) ∧
      live_stored_value (some 3) (some 4) = some (round3 3)) :=
  ⟨(c1_live_value_normalization 1 (some 4)).1 (by norm_num [py_or_zero])
      (by norm_num [py_or_zero]),
    (c1_live_value_normalization 3 (some 4)).2
      (Or.inr (by norm_num [py_or_zero]))⟩

/-- C2 counterexample: with cached `L = 1` and fresh reading `r = 1/10000`
(a delta, since `r < 0.5·L`), the claim demands the corrected value `L + r =
1.0001`; the code stores `round(L + r, 3) = 1` instead. -/
theorem c2_rest_correction_counterexample :
    (1/10000 : ℚ) < 1 * (1/2) ∧
    (correct_energy_field (some (1/10000)) (some 1)).value = some 1 ∧
    (1 : ℚ) ≠ 1 + 1/10000 := by
  have hf : ⌊((1 : ℚ) + 1/10000) * 10 ^ 3⌋ = 1000 := by
    rw [Int.floor_eq_iff]
    norm_num
  have hr3 : round3 ((1 : ℚ) + 1/10000) = 1 := by
    have h := round3_eq_of_floor hf (by norm_num)
    rw [h]
    norm_num
  have hc : (1/10000 : ℚ) < 1 * (1/2) := by norm_num
  refine ⟨hc, ?_, by norm_num⟩
  simp only [correct_energy_field]
  rw [if_pos hc]
  simp only [hr3]

/-- C2 (amended): for fresh REST reading `r` against cached lifetime `L`:
when `r < 0.5·L` the device value and the cache both become
`round3 (L + r)` (the claim's `L + r`, rounded to 3 decimals); otherwise the
device value stays `r` and the cache becomes `r` exactly when no cache exists
or `r` exceeds it; the scenario cached `3400.0`, reading `0.25` yields
`3400.25` for both. -/
theorem c2_correct_lifetime_values (L r : ℚ) :
    (r < L * (1/2) →
      correct_energy_field (some r) (some L) =
        ⟨some (round3 (L + r)), some (round3 (L + r)), true⟩) ∧
    (¬ r < L * (1/2) → L < r →
      correct_energy_field (some r) (some L) = ⟨some r, some r, true⟩) ∧
    (¬ r < L * (1/2) → ¬ L < r →
      correct_energy_field (some r) (some L) = ⟨some r, some L, false⟩) ∧
    correct_energy_field (some r) none = ⟨some r, some r, true⟩ ∧
    correct_energy_field (some (1/4)) (some 3400) =
      ⟨some (3400 + 1/4), some (3400 + 1/4), true⟩ := by
  refine ⟨?_, ?_, ?_, rfl, ?_⟩
  · intro h
    simp only [correct_energy_field]
    rw [if_pos h]
  · intro h1 h2
    simp only [correct_energy_field]
    rw [if_neg h1, if_pos h2]
  · intro h1 h2
    simp only [correct_energy_field]
    rw [if_neg h1, if_neg h2]
  · have hf : ⌊((3400 : ℚ) + 1/4) * 10 ^ 3⌋ = 3400250 := by
      rw [Int.floor_eq_iff]
      norm_num
    have hr3 : round3 ((3400 : ℚ) + 1/4) = 3400 + 1/4 := by
      have h := round3_eq_of_floor hf (by norm_num)
      rw [h]
      norm_num
    have hc : (1/4 : ℚ) < 3400 * (1/2) := by norm_num
    simp only [correct_energy_field]
    rw [if_pos hc]
    simp only [hr3]

/-- C2 witness: the three live branches at cached `150`: reading `100`
(above half, below cache) leaves everything; reading `200` becomes the new
cache; reading `10` is corrected to `round3 160`. -/
theorem c2_correct_lifetime_values_witness :
    correct_energy_field (some 100) (some 150) = ⟨some 100, some 150, false⟩ ∧
    correct_energy_field (some 200) (some 150) = ⟨some 200, some 200, true⟩ ∧
    correct_energy_field (some 10) (some 150) =
      ⟨some (round3 (150 + 10)), some (round3 (150 + 10)), true⟩ :=
  ⟨(c2_correct_lifetime_values 150 100).2.2.1 (by norm_num) (by norm_num),
    (c2_correct_lifetime_values 150 200).2.1 (by norm_num) (by norm_num),
    (c2_correct_lifetime_values 150 10).1 (by norm_num)⟩

/-- C3 counterexample: a non-negative reading `60` against established
cached lifetime `100` is at/above the half threshold, so the correction
accepts it as-is: the value the consumer sees drops from `100` to `60` —
the counters are not monotonically non-decreasing for all non-negative
readings. -/
theorem c3_monotonic_counterexample :
    (0 : ℚ) ≤ 60 ∧
    (correct_energy_field (some 60) (some 100)).value = some 60 ∧
    (60 : ℚ) < 100 := by
  refine ⟨by norm_num, ?_, by norm_num⟩
  simp only [correct_energy_field]
  rw [if_neg (by norm_num : ¬((60 : ℚ) < 100 * (1/2))),
    if_neg (by norm_num : ¬((100 : ℚ) < 60))]

/-- C3 (amended): established values never decrease for readings below half
of the established value: with a 3-decimal cached lifetime `L` and
`0 ≤ r < 0.5·L`, the REST correction produces `round3 (L + r) ≥ L`; and a
live value `v ≤ 0.5·L` (with `L ≠ 0`) leaves the stored value at `L`.
Readings in `[0.5·L, L)` are accepted as-is and may decrease the value. -/
theorem c3_monotonic_below_half (L : ℚ) (hL : Is3Dec L) :
    (∀ r, 0 ≤ r → r < L * (1/2) →
      (correct_energy_field (some r) (some L)).value =
          some (round3 (L + r)) ∧
        L ≤ round3 (L + r)) ∧
    (∀ v, L ≠ 0 → v ≤ L * (1/2) →
      live_stored_value (some v) (some L) = some L) := by
  constructor
  · intro r hr hhalf
    constructor
    · simp only [correct_energy_field]
      rw [if_pos hhalf]
    · exact round3_intAdd_ge hL hr
  · intro v h1 h2
    have hc : ¬(py_or_zero (some L) = 0 ∨
        py_or_zero (some L) * (1/2) < v) := by
      push_neg
      exact ⟨h1, h2⟩
    have hn : normalize_energy_field (some v) (some L) = none := by
      simp only [normalize_energy_field]
      rw [if_neg hc]
    simp [live_stored_value, hn, merge_field]

/-- C3 witness: cached `100`: REST reading `10` corrects to
`round3 110 ≥ 100`; live value `50` leaves the store at `100`. -/
theorem c3_monotonic_below_half_witness :
    (correct_energy_field (some 10) (some 100)).value =
      some (round3 (100 + 10)) ∧
    (100 : ℚ) ≤ round3 (100 + 10) ∧
    live_stored_value (some 50) (some 100) = some 100 := by
  have h := c3_monotonic_below_half 100 ⟨100000, by norm_num⟩
  have h1 := h.1 10 (by norm_num) (by norm_num)
  exact ⟨h1.1, h1.2, h.2 50 (by norm_num) (by norm_num)⟩

/-- C5 counterexample: at cached `L = 1 > 0` and reading `r = 0` (which
satisfies `0 ≤ r < 0.5·L`), the delta-correction result is
`round3 (1 + 0) = 1`, not strictly greater than `L`. -/
theorem c5_strict_increase_counterexample :
    (0 : ℚ) < 1 ∧ (0 : ℚ) ≤ 0 ∧ (0 : ℚ) < 1 * (1/2) ∧
    (correct_energy_field (some 0) (some 1)).value = some 1 ∧
    ¬ (1 : ℚ) < 1 := by
  have hf : ⌊((1 : ℚ) + 0) * 10 ^ 3⌋ = 1000 := by
    rw [Int.floor_eq_iff]
    norm_num
  have hr3 : round3 ((1 : ℚ) + 0) = 1 := by
    have h := round3_eq_of_floor hf (by norm_num)
    rw [h]
    norm_num
  refine ⟨by norm_num, le_refl 0, by norm_num, ?_, by norm_num⟩
  simp only [correct_energy_field]
  rw [if_pos (by norm_num : (0 : ℚ) < 1 * (1/2))]
  simp only [hr3]

/-- C5 (amended): for a 3-decimal cached `L > 0` and `0 ≤ r < 0.5·L` the
delta-correction value `round3 (L + r)` never decreases below `L`, and it is
strictly greater than `L` as soon as `r ≥ 0.001` (one rounding quantum). -/
theorem c5_delta_correction_monotone (L r : ℚ) (hL : Is3Dec L) (_hpos : 0 < L)
    (hr : 0 ≤ r) (hhalf : r < L * (1/2)) :
    (correct_energy_field (some r) (some L)).value = some (round3 (L + r)) ∧
    L ≤ round3 (L + r) ∧ (1/1000 ≤ r → L < round3 (L + r)) := by
  refine ⟨?_, round3_intAdd_ge hL hr, fun h => round3_intAdd_gt hL h⟩
  simp only [correct_energy_field]
  rw [if_pos hhalf]

/-- C5 witness: cached `2`, reading `1/2`: corrected value is
`round3 (5/2)`, which is `≥ 2` and strictly greater than `2`. -/
theorem c5_delta_correction_monotone_witness :
    (correct_energy_field (some (1/2)) (some 2)).value =
      some (round3 (2 + 1/2)) ∧
    (2 : ℚ) ≤ round3 (2 + 1/2) ∧ (2 : ℚ) < round3 (2 + 1/2) := by
  have h := c5_delta_correction_monotone 2 (1/2) ⟨2000, by norm_num⟩
    (by norm_num) (by norm_num) (by norm_num)
  exact ⟨h.1, h.2.1, h.2.2 (by norm_num)⟩

/-- C8: per-branch failure containment in discovery of one residence: if the
WHEM fetch raises a connection error while the panel fetch succeeds, every
returned panel is present in the resulting store; symmetrically, a panel
fetch failure does not remove the fetched hubs. -/
theorem c8_partial_discovery (client : DiscoveryClient) (rid : ℤ)
    (d : LevitonData) :
    (∀ ps, client.get_whems rid = .error () → client.get_panels rid = .ok ps →
      ∀ p ∈ ps,
        (((discover_residence_devices client rid d).panels).lookup
          p.id).isSome) ∧
    (∀ ws, client.get_panels rid = .error () → client.get_whems rid = .ok ws →
      ∀ w ∈ ws,
        (((discover_residence_devices client rid d).whems).lookup
          w.id).isSome) := by
  constructor
  · intro ps hw hp p hmem
    unfold discover_residence_devices
    rw [hw, hp]
    exact foldl_add_panel_children_mem client ps d p hmem
  · intro ws hp hw w hmem
    unfold discover_residence_devices
    rw [hw, hp]
    exact foldl_add_whem_children_mem client ws d w hmem

/-- C8 witness: with one client whose hub fetch fails the panel `"p1"` is
still discovered, and with one whose panel fetch fails the hub `"w1"` is. -/
theorem c8_partial_discovery_witness :
    ((discover_residence_devices demoClientHubFail 1 emptyData).panels.lookup
      "p1").isSome ∧
    ((discover_residence_devices demoClientPanelFail 1 emptyData).whems.lookup
      "w1").isSome :=
  ⟨(c8_partial_discovery demoClientHubFail 1 emptyData).1
      [⟨"p1"⟩] rfl rfl ⟨"p1"⟩ (List.mem_singleton.mpr rfl),
    (c8_partial_discovery demoClientPanelFail 1 emptyData).2
      [⟨"w1", none⟩] rfl rfl ⟨"w1", none⟩ (List.mem_singleton.mpr rfl)⟩

/-- Every path through the notification handler only rewrites the staleness
clock (to `now`) and the store: connection and reconnection flags are
untouched. -/
theorem handle_ws_notification_shape (s : WsManagerState) (now : ℚ)
    (n : WsNotification) :
    ∃ d, handle_ws_notification s now n =
      ⟨s.wsConnected, s.reconnecting, now, d⟩ := by
  unfold handle_ws_notification
  cases hm : n.modelId with
  | none => exact ⟨s.data, rfl⟩
  | some mid =>
    dsimp only
    split_ifs <;> exact ⟨_, rfl⟩

/-- C9: the WS notification handler resets the staleness clock to the
current monotonic time for every inbound notification — including ones
dropped for an empty payload, a missing model id or an unknown model name —
so the watchdog will not declare the connection stale within the 90-second
window after any such message. -/
theorem c9_ws_clock_reset (s : WsManagerState) (now : ℚ)
    (n : WsNotification) :
    (handle_ws_notification s now n).lastWsNotification = now ∧
    ∀ t : ℚ, t - now < 90 →
      watchdog_declares_stale (handle_ws_notification s now n) t = false := by
  obtain ⟨d, hd⟩ := handle_ws_notification_shape s now n
  rw [hd]
  constructor
  · rfl
  · intro t ht
    unfold watchdog_declares_stale
    dsimp only
    by_cases h1 : (!s.wsConnected || s.reconnecting) = true
    · rw [if_pos h1]
    · rw [if_neg h1, if_pos ht]

/-- C9 witness: an unknown-model, empty-payload notification at time `10`
still sets the clock to `10`, and the watchdog at time `50` stays quiet. -/
theorem c9_ws_clock_reset_witness :
    (handle_ws_notification demoWsState 10 demoNotice).lastWsNotification
      = 10 ∧
    watchdog_declares_stale
      (handle_ws_notification demoWsState 10 demoNotice) 50 = false :=
  ⟨(c9_ws_clock_reset demoWsState 10 demoNotice).1,
    (c9_ws_clock_reset demoWsState 10 demoNotice).2 50 (by norm_num)⟩
